import Mathlib

/-!
Verification of the hrflow-indeed-connector concurrency/orchestration core.

Shallow embedding of `src/crawling.py` (classes `ScrapingWorker` and
`JobIndexing`) and `src/indexing.py` (`index_job`).  Python coroutines are
modelled as pure functions over explicit state; exceptions as `Except`;
`asyncio` primitives (`Queue`, `Task`) by their documented semantics; the
process PRNG (`random.randint`) by an explicit draw argument.
-/

namespace IndeedConnector

/-! ## Worker identity (`ScrapingWorker.__init__`, crawling.py line 48)

The source sets `self.id = random.randint(20, 9999)`.  `random.randint a b`
draws uniformly from the inclusive range `[a, b]`; we model the PRNG by an
explicit natural-number draw `r`, mapped into the range. -/

/-- Python `random.randint(a, b)`: inclusive range, modelled with an explicit
PRNG draw `r` reduced into the `b - a + 1` possible values. -/
def randint (a b r : ℕ) : ℕ := a + r % (b - a + 1)

/-- `ScrapingWorker.__init__` assigns `self.id = random.randint(20, 9999)`.
The identity is a function of the PRNG draw only; no pool-issued input is
involved. -/
def workerId (r : ℕ) : ℕ := randint 20 9999 r

/-! ## Bounded queue (`asyncio.Queue`, used in `JobIndexing.__init__`)

`JobIndexing.__init__` builds `asyncio.Queue(maxsize=data_buffer_size)` with
default `data_buffer_size = -1`.  Per the `asyncio` semantics, a queue with
`maxsize <= 0` is never full and `put` never blocks; otherwise `put` suspends
while `qsize >= maxsize`. -/

/-- Whether an `asyncio.Queue` with the given `maxsize` is full when holding
`qsize` items: never full when `maxsize <= 0`. -/
def queueFull (maxsize : ℤ) (qsize : ℕ) : Bool :=
  if maxsize ≤ 0 then false else (qsize : ℤ) ≥ maxsize

/-- `Queue.put` suspends (backpressure) exactly when the queue is full. -/
def putSuspends (maxsize : ℤ) (qsize : ℕ) : Bool := queueFull maxsize qsize

/-- Default `data_buffer_size` in `JobIndexing.__init__`. -/
def data_buffer_size_default : ℤ := -1

/-! ## Job records and the index store (`src/indexing.py`)

`RawJob` lives in the absent `src/data_models.py`; the fields used by the
core are `in_platform_id` (the board-assigned reference), the detail payload
added by `update_data`, and `api_format` producing the record submitted to
the service. -/

/-- Job record flowing through the pipeline.  `in_platform_id` is the
deduplication reference; detail fields are absent until enrichment. -/
structure RawJob where
  in_platform_id : String
  job_details : Option String
  job_metadata : Option String
deriving DecidableEq, Repr

/-- Modelled from the spec: `RawJob.update_data` (in the absent
`src/data_models.py`) adds the detail fields to a summarized record;
enrichment never overwrites summary fields, only adds detail fields. -/
def RawJob.update_data (j : RawJob) (job_details job_metadata : String) : RawJob :=
  { j with job_details := some job_details, job_metadata := some job_metadata }

/-- Record shape submitted to the indexing service.  Modelled from the spec:
`api_format` (absent `src/data_models.py`) carries the record's `reference`
through to the service payload. -/
structure HrflowJob where
  reference : String
deriving DecidableEq, Repr

/-- Modelled from the spec: `RawJob.api_format` converts the scraped record
to the service format, keeping `in_platform_id` as the `reference` key. -/
def RawJob.api_format (j : RawJob) : HrflowJob := ⟨j.in_platform_id⟩

/-- State of the external IndexStore: the set of stored records, keyed by
`(board_key, reference)`.  `get` and `add` are the two remote calls of §6. -/
structure IndexStore where
  entries : List (String × HrflowJob)
deriving DecidableEq, Repr

/-- `client.job.indexing.get(board_key, reference)`: the stored record with
that reference under that board, or absent. -/
def IndexStore.get (s : IndexStore) (board_key reference : String) : Option HrflowJob :=
  (s.entries.find? fun e => e.1 == board_key && e.2.reference == reference).map (·.2)

/-- `client.job.indexing.add_json(board_key, job_json)`: stores the record
under the board (entry order is irrelevant to `get`-by-reference). -/
def IndexStore.add_json (s : IndexStore) (board_key : String) (j : HrflowJob) : IndexStore :=
  ⟨(board_key, j) :: s.entries⟩

/-- `index_job` (src/indexing.py): fetch the existing entry for the record's
reference; if absent, format and add the record.  Returns the updated store
and whether the `add` call was made. -/
def index_job (board_key : String) (store : IndexStore) (extracted_job : RawJob) :
    IndexStore × Bool :=
  let job_already_indexed := store.get board_key extracted_job.in_platform_id
  match job_already_indexed with
  | some _ => (store, false)
  | none => (store.add_json board_key extracted_job.api_format, true)

/-! ## Pipeline errors

One error type for the whole embedding: failures the collaborators can
produce. -/

/-- Errors raised by collaborators of the core. -/
inductive PipelineError
  | feedScanFailure
  | extractionFailure
  | indexTransportFailure
  | resourceFailure
deriving DecidableEq, Repr

/-! ## Detail fetch (`ScrapingWorker.job_details_collector`, crawling.py 79-92)

The body is
```
if job_page_content := await visit_job_page(page=self.page, job=job):
    job_details, job_metadata = extract_details(page_content=job_page_content)
    job.update_data(job_details=job_details, job_metadata=job_metadata)
    return job
return None
```
`visit_job_page` (absent `src/navigation.py`) and `extract_details` (absent
`src/parsing.py`) are passed in as the collaborator functions. -/

/-- Modelled from the spec: navigation (absent `src/navigation.py`) yields
the detail-page content, or absent when navigation fails (the call site
tests the result for truthiness, so a navigation soft failure is a falsy
return, not an exception). -/
def VisitJobPage : Type := RawJob → Option String

/-- Modelled from the spec: the Extractor interface of §6,
`extract_details(page content) -> (detail fields, metadata) | failure`.
The call site unpacks the result as a pair, so the failure outcome can only
surface as an exception. -/
def ExtractDetails : Type := String → Except PipelineError (String × String)

/-- `ScrapingWorker.job_details_collector`: visit the job page; on falsy
page content return `None`; otherwise run extraction (whose failure is not
caught here) and return the enriched record. -/
def job_details_collector (visit_job_page : VisitJobPage)
    (extract_details : ExtractDetails) (job : RawJob) :
    Except PipelineError (Option RawJob) :=
  match visit_job_page job with
  | some job_page_content =>
      match extract_details job_page_content with
      | .ok (job_details, job_metadata) =>
          .ok (some (job.update_data job_details job_metadata))
      | .error e => .error e
  | none => .ok none

/-! ## `JobIndexing.run` (crawling.py 173-188)

The body is straight-line:
```
producer_task = asyncio.create_task(self.job_producer())
consumer_tasks = [asyncio.create_task(self.job_consumer()) for _ in range(self.conccurency_lvl)]
self.tasks.append(producer_task); self.tasks.extend(consumer_tasks)
await producer_task
await self.job_queue.join()
for consumer in consumer_tasks:
    consumer.cancel()
```
We record the sequence of orchestration events `run` performs.  There is no
`try`/`finally`: an exception at `await producer_task` aborts the remaining
statements of `run` and propagates. -/

/-- Orchestration events performed by `JobIndexing.run`, in program order. -/
inductive RunEvent
  | spawnProducer
  | spawnConsumer (i : ℕ)
  | awaitProducer
  | awaitJoin
  | cancelConsumer (i : ℕ)
  | awaitConsumerAck (i : ℕ)
deriving DecidableEq, Repr

/-- Whether an event is the spawn of a consumer task. -/
def RunEvent.isSpawnConsumer : RunEvent → Bool
  | RunEvent.spawnConsumer _ => true
  | _ => false

/-- The task-spawning prologue of `run`: one producer task, then one
consumer task per unit of `conccurency_lvl`. -/
def spawnEvents (conccurency_lvl : ℕ) : List RunEvent :=
  RunEvent.spawnProducer :: (List.range conccurency_lvl).map RunEvent.spawnConsumer

/-- `JobIndexing.run`, given the outcome of the awaited producer task:
the events performed, and the outcome of `run` itself.  On a producer
error the `await` re-raises and no later statement of `run` executes;
otherwise `run` awaits the queue join and issues `cancel()` to each
consumer (and then returns — there is no further `await`). -/
def JobIndexing.run (conccurency_lvl : ℕ)
    (producerOutcome : Except PipelineError Unit) :
    List RunEvent × Except PipelineError Unit :=
  match producerOutcome with
  | .error e => (spawnEvents conccurency_lvl ++ [RunEvent.awaitProducer], .error e)
  | .ok _ =>
      (spawnEvents conccurency_lvl ++ [RunEvent.awaitProducer, RunEvent.awaitJoin]
        ++ (List.range conccurency_lvl).map RunEvent.cancelConsumer, .ok ())

/-! ## Worker creation per task (crawling.py 151-171)

`job_producer` opens exactly one `ScrapingWorker` ("Feed Scraping") and
`job_consumer` opens exactly one `ScrapingWorker` ("Job Details Scraping"),
each appended to `self.worker_pool` and referenced only by the local
variable `worker` of its creating coroutine. -/

/-- The tasks of a run. -/
inductive TaskId
  | producer
  | consumer (i : ℕ)
deriving DecidableEq, Repr

/-- Owners of the workers created during a run with `conccurency_lvl`
consumers: the producer task creates one worker, and each consumer task
creates one worker; a worker is referenced only by its creating task. -/
def workerCreations (conccurency_lvl : ℕ) : List TaskId :=
  TaskId.producer :: (List.range conccurency_lvl).map TaskId.consumer

/-! ## Resource acquisition (`JobIndexing.__aenter__`, crawling.py 116-127)

```
self.playwright_engine = await async_playwright().start()
self.browser = await self.playwright_engine.chromium.launch(headless=self.headless)
self.hrflow_client = Hrflow(api_secret=..., api_user=...)
return self
```
Straight-line, no `try`: a failing step propagates with every earlier
resource still held. -/

/-- The long-lived resources acquired by `__aenter__`, in acquisition
order. -/
inductive Resource
  | playwrightEngine
  | browser
  | hrflowClient
deriving DecidableEq, Repr

/-- `JobIndexing.__aenter__`, with fault injection: `failAt` names the
acquisition step that raises (or `none`).  Returns the resources held when
`__aenter__` finishes, the resources it released before propagating, and
the outcome. -/
def JobIndexing.aenter (failAt : Option Resource) :
    List Resource × List Resource × Except PipelineError Unit :=
  if failAt = some Resource.playwrightEngine then ([], [], .error .resourceFailure)
  else if failAt = some Resource.browser then
    ([Resource.playwrightEngine], [], .error .resourceFailure)
  else if failAt = some Resource.hrflowClient then
    ([Resource.playwrightEngine, Resource.browser], [], .error .resourceFailure)
  else ([Resource.playwrightEngine, Resource.browser, Resource.hrflowClient], [], .ok ())

/-! ## Teardown (`JobIndexing.__aexit__`, crawling.py 129-149)

```
for task in self.tasks: ... task.cancel()
for worker in self.worker_pool: await worker.stop()
if self.browser: await self.browser.close()
if self.playwright_engine: await self.playwright_engine.stop()
```
Sequential statements with no `try`: the first step that raises aborts the
rest of `__aexit__` and its error propagates. -/

/-- The release steps of `__aexit__`, in program order. -/
inductive TeardownStep
  | cancelTasks
  | stopWorkers
  | closeBrowser
  | stopEngine
deriving DecidableEq, Repr

/-- Python sequential execution of guarded, possibly-raising steps: each
step runs only if its guard holds; the first raising step ends execution
with its error, skipping everything after it. -/
def runSteps : List (TeardownStep × Bool × Bool) → List TeardownStep × Option TeardownStep
  | [] => ([], none)
  | (s, guard, raises) :: rest =>
      if guard then
        if raises then ([s], some s)
        else
          let (attempted, err) := runSteps rest
          (s :: attempted, err)
      else runSteps rest

/-- `JobIndexing.__aexit__`: the four release steps in source order, the
browser and engine steps guarded by the corresponding attribute being set,
with fault injection per step.  Returns the steps attempted and the error
that propagated, if any. -/
def JobIndexing.aexit (hasBrowser hasEngine : Bool)
    (fCancel fWorkers fBrowser fEngine : Bool) :
    List TeardownStep × Option TeardownStep :=
  runSteps [(TeardownStep.cancelTasks, true, fCancel),
            (TeardownStep.stopWorkers, true, fWorkers),
            (TeardownStep.closeBrowser, hasBrowser, fBrowser),
            (TeardownStep.stopEngine, hasEngine, fEngine)]

/-! ## Consumer loop body (`JobIndexing.job_consumer`, crawling.py 164-171)

```
initial_job = await self.job_queue.get()
full_job = await worker.job_details_collector(job=initial_job)
if full_job:
    await asyncio.to_thread(index_job, ...)
self.job_queue.task_done()
```
`task_done()` is the last statement: an exception from the fetch or from
the offloaded indexing call skips it and kills the consumer task. -/

/-- One iteration of the consumer loop after a successful dequeue, given
the fetch outcome and the offloaded indexing outcome.  Returns `.ok true`
when the iteration ran `task_done()`; `.error e` when it raised (and hence
never acknowledged the item). -/
def consumerIteration (fetchResult : Except PipelineError (Option RawJob))
    (indexResult : Except PipelineError Unit) : Except PipelineError Bool :=
  match fetchResult with
  | .error e => .error e
  | .ok none => .ok true
  | .ok (some _) =>
      match indexResult with
      | .error e => .error e
      | .ok _ => .ok true

/-- `task_done` calls contributed by one dequeued item's iteration. -/
def acksOfIteration (it : Except PipelineError Bool) : ℕ :=
  match it with
  | .ok _ => 1
  | .error _ => 0

/-- `asyncio.Queue.join` semantics: the join completes exactly when the
count of unacknowledged enqueued items is zero. -/
def joinCompletes (unfinished : ℕ) : Bool := unfinished == 0

/-- Unacknowledged count after every enqueued item's iteration ran:
each item contributes one enqueue and at most one `task_done`. -/
def unfinishedAfter (iterations : List (Except PipelineError Bool)) : ℕ :=
  iterations.length - (iterations.map acksOfIteration).sum

/-! ## Helper lemmas -/

theorem get_add_json (s : IndexStore) (bk : String) (hj : HrflowJob) :
    (s.add_json bk hj).get bk hj.reference = some hj := by
  simp [IndexStore.add_json, IndexStore.get, List.find?]

/-! ## Claims -/

/-- C1, counterexample: worker construction is given no pool-issued input;
the identity comes from `random.randint(20, 9999)`.  Two constructions
identical in every input but observing different PRNG states receive
different identities, so the assignment is by chance, not deterministic. -/
theorem C1_counterexample : workerId 0 ≠ workerId 1 := by decide

/-- C1, amended: the identity `ScrapingWorker.__init__` assigns is
`20 + draw % 9980`, a function of the PRNG draw alone, lying in
`[20, 9999]`; draws congruent mod 9980 give equal identities, so identities
are neither deterministic in the constructor inputs nor unique across
workers (`workerId 5 = workerId 9985`). -/
theorem C1_worker_identity_random :
    (∀ r, 20 ≤ workerId r ∧ workerId r ≤ 9999) ∧
    (∀ r₁ r₂, r₁ % 9980 = r₂ % 9980 → workerId r₁ = workerId r₂) ∧
    workerId 5 = workerId 9985 ∧ workerId 0 ≠ workerId 1 := by
  refine ⟨fun r => ?_, fun r₁ r₂ h => ?_, by decide, by decide⟩
  · unfold workerId randint
    have : r % (9999 - 20 + 1) < 9980 := Nat.mod_lt _ (by norm_num)
    omega
  · unfold workerId randint
    norm_num at h ⊢
    omega

/-- C1, witness for the amended theorem at concrete draws. -/
theorem C1_worker_identity_random_witness :
    (20 ≤ workerId 7 ∧ workerId 7 ≤ 9999) ∧ workerId 3 = workerId 9983 :=
  ⟨C1_worker_identity_random.1 7,
   C1_worker_identity_random.2.1 3 9983 (by decide)⟩

/-- C8: the default `data_buffer_size = -1` makes the queue unbounded:
`put` never suspends for backpressure, whatever the outstanding count. -/
theorem C8_default_capacity_never_suspends :
    ∀ qsize : ℕ, putSuspends data_buffer_size_default qsize = false := by
  intro qsize
  simp [putSuspends, queueFull, data_buffer_size_default]

/-- C6: `index_job` calls `add` iff the preceding `get` on the record's
reference is absent, and two sequential submissions with the same reference
to an initially-absent store make exactly one `add` call (the first). -/
theorem C6_indexing_idempotent :
    (∀ (bk : String) (s : IndexStore) (j : RawJob),
      (index_job bk s j).2 = true ↔ s.get bk j.in_platform_id = none) ∧
    (∀ (bk : String) (s : IndexStore) (j j' : RawJob),
      j'.in_platform_id = j.in_platform_id →
      s.get bk j.in_platform_id = none →
      (index_job bk s j).2 = true ∧
        (index_job bk (index_job bk s j).1 j').2 = false) := by
  constructor
  · intro bk s j
    unfold index_job
    cases h : s.get bk j.in_platform_id <;> simp [h]
  · intro bk s j j' href habs
    unfold index_job
    simp only [habs]
    have hadd : (s.add_json bk j.api_format).get bk j'.in_platform_id =
        some j.api_format := by
      rw [href]
      have := get_add_json s bk j.api_format
      simpa [RawJob.api_format] using this
    simp [hadd]

/-- C6, witness: an empty store, the same reference submitted twice. -/
theorem C6_indexing_idempotent_witness :
    (index_job "board" ⟨[]⟩ ⟨"ref-1", none, none⟩).2 = true ∧
    (index_job "board" (index_job "board" ⟨[]⟩ ⟨"ref-1", none, none⟩).1
      ⟨"ref-1", none, none⟩).2 = false :=
  C6_indexing_idempotent.2 "board" ⟨[]⟩ ⟨"ref-1", none, none⟩
    ⟨"ref-1", none, none⟩ rfl (by decide)

/-- C2, counterexample: with one consumer and a producer that raises a
feed-scan failure, `run` propagates the error but performs neither the
queue-drain wait nor any consumer cancellation — there is no
`try`/`finally` around `await producer_task`. -/
theorem C2_counterexample :
    (JobIndexing.run 1 (.error .feedScanFailure)).2 =
      .error PipelineError.feedScanFailure ∧
    RunEvent.awaitJoin ∉ (JobIndexing.run 1 (.error .feedScanFailure)).1 ∧
    RunEvent.cancelConsumer 0 ∉ (JobIndexing.run 1 (.error .feedScanFailure)).1 :=
  ⟨rfl, by decide, by decide⟩

/-- C2, amended: a producer error is propagated by `run`, but `run` then
performs no drain wait and no cancellation; drain and cancellation happen
only on the success path.  Task cancellation on the error path is left to
scope exit: `__aexit__` still begins with the cancel-tasks step. -/
theorem C2_run_aborts_on_producer_error :
    (∀ (n : ℕ) (e : PipelineError),
      (JobIndexing.run n (.error e)).2 = .error e ∧
      RunEvent.awaitJoin ∉ (JobIndexing.run n (.error e)).1 ∧
      (∀ i, RunEvent.cancelConsumer i ∉ (JobIndexing.run n (.error e)).1)) ∧
    (∀ n : ℕ, RunEvent.awaitJoin ∈ (JobIndexing.run n (.ok ())).1 ∧
      ∀ i, i < n → RunEvent.cancelConsumer i ∈ (JobIndexing.run n (.ok ())).1) ∧
    (∀ hasBrowser hasEngine : Bool,
      (JobIndexing.aexit hasBrowser hasEngine false false false false).1.head? =
        some TeardownStep.cancelTasks) := by
  refine ⟨fun n e => ⟨rfl, ?_, fun i => ?_⟩, fun n => ⟨?_, fun i hi => ?_⟩,
    fun hasBrowser hasEngine => ?_⟩
  · simp [JobIndexing.run, spawnEvents]
  · simp [JobIndexing.run, spawnEvents]
  · simp [JobIndexing.run, spawnEvents]
  · simp [JobIndexing.run, spawnEvents]
    exact hi
  · cases hasBrowser <;> cases hasEngine <;> decide

/-- C2, witness for the amended theorem at one consumer. -/
theorem C2_run_aborts_on_producer_error_witness :
    RunEvent.awaitJoin ∉ (JobIndexing.run 1 (.error .resourceFailure)).1 ∧
    RunEvent.cancelConsumer 0 ∈ (JobIndexing.run 1 (.ok ())).1 :=
  ⟨(C2_run_aborts_on_producer_error.1 1 PipelineError.resourceFailure).2.1,
   (C2_run_aborts_on_producer_error.2.1 1).2 0 (by decide)⟩

/-- C9, counterexample: after cancelling the consumers, `run` performs no
await of them at all — `run 1` on the success path contains no consumer
acknowledgement wait, so "run() awaits their cancellation acknowledgement"
fails. -/
theorem C9_counterexample :
    RunEvent.awaitConsumerAck 0 ∉ (JobIndexing.run 1 (.ok ())).1 ∧
    (JobIndexing.run 1 (.ok ())).1.getLast? = some (RunEvent.cancelConsumer 0) := by
  decide

/-- C9, amended: on the success path consumers are cancelled only after the
drain wait (every cancel event sits after `awaitJoin` in the trace), no
cancellation surfaces as an error (`run` returns ok), but `run` never
awaits the cancellation acknowledgement — the cancel requests are the last
thing it does. -/
theorem C9_cancel_after_drain_never_awaited :
    ∀ n : ℕ,
      (∃ pre post, (JobIndexing.run n (.ok ())).1 =
          pre ++ RunEvent.awaitJoin :: post ∧
        (∀ i, RunEvent.cancelConsumer i ∉ pre) ∧
        (∀ i, RunEvent.cancelConsumer i ∈ post ↔ i < n)) ∧
      (∀ i, RunEvent.awaitConsumerAck i ∉ (JobIndexing.run n (.ok ())).1) ∧
      (JobIndexing.run n (.ok ())).2 = .ok () := by
  intro n
  refine ⟨⟨spawnEvents n ++ [RunEvent.awaitProducer],
    (List.range n).map RunEvent.cancelConsumer, ?_, fun i => ?_, fun i => ?_⟩,
    fun i => ?_, rfl⟩
  · simp [JobIndexing.run]
  · simp [spawnEvents]
  · simp
  · simp [JobIndexing.run, spawnEvents]

/-- C9, witness for the amended theorem at two consumers. -/
theorem C9_cancel_after_drain_never_awaited_witness :
    RunEvent.awaitConsumerAck 0 ∉ (JobIndexing.run 2 (.ok ())).1 ∧
    (JobIndexing.run 2 (.ok ())).2 = .ok () :=
  ⟨(C9_cancel_after_drain_never_awaited 2).2.1 0,
   (C9_cancel_after_drain_never_awaited 2).2.2⟩

/-- C7: `run` spawns exactly one producer task and exactly
`conccurency_lvl` consumer tasks (whatever the producer outcome), each
consumer task creates exactly one detail-fetch worker (`workerCreations`
holds one creation per consumer, plus the producer's), and no worker is
shared: the creators are pairwise distinct, so each worker is referenced
only by the task that created it. -/
theorem C7_one_worker_per_consumer :
    ∀ (n : ℕ) (out : Except PipelineError Unit),
      (JobIndexing.run n out).1.count RunEvent.spawnProducer = 1 ∧
      (JobIndexing.run n out).1.countP RunEvent.isSpawnConsumer = n ∧
      (∀ i, (workerCreations n).count (TaskId.consumer i) =
        if i < n then 1 else 0) ∧
      (workerCreations n).Nodup := by
  intro n out
  refine ⟨?_, ?_, fun i => ?_, ?_⟩
  · cases out <;>
      simp [JobIndexing.run, spawnEvents, List.count_append, List.count_cons,
        List.count_eq_zero]
  · cases out <;>
      simp [JobIndexing.run, spawnEvents, List.countP_append, List.countP_cons,
        RunEvent.isSpawnConsumer, List.countP_map, Function.comp_def]
  · rw [workerCreations, List.count_cons_of_ne (by simp)]
    rw [List.count_map_of_injective _ TaskId.consumer
      (fun a b h => by cases h; rfl)]
    by_cases hi : i < n
    · rw [if_pos hi]
      exact List.count_eq_one_of_mem (List.nodup_range n) (List.mem_range.mpr hi)
    · rw [if_neg hi]
      exact List.count_eq_zero.mpr fun hmem => hi (List.mem_range.mp hmem)
  · refine List.Nodup.cons (by simp) ?_
    exact (List.nodup_range n).map fun a b h => by cases h; rfl

/-- C3, counterexample: when the browser launch in `__aenter__` fails, the
already-started playwright engine is held and the error propagates without
any release — `__aenter__` has no cleanup path. -/
theorem C3_counterexample :
    (JobIndexing.aenter (some Resource.browser)).2.2 =
      .error PipelineError.resourceFailure ∧
    Resource.playwrightEngine ∈ (JobIndexing.aenter (some Resource.browser)).1 ∧
    Resource.playwrightEngine ∉ (JobIndexing.aenter (some Resource.browser)).2.1 := by
  refine ⟨rfl, by decide, by decide⟩

/-- C3, amended: on any acquisition failure the error propagates to the
caller, but `__aenter__` releases nothing: the already-acquired resources
stay held (the released list is empty in every case, and `__aexit__` does
not run because the scope was never entered). -/
theorem C3_aenter_releases_nothing :
    ∀ failAt : Option Resource,
      (JobIndexing.aenter failAt).2.1 = [] ∧
      (∀ s, failAt = some s →
        (JobIndexing.aenter failAt).2.2 = .error PipelineError.resourceFailure) := by
  intro failAt
  cases failAt with
  | none => exact ⟨rfl, by simp⟩
  | some s => cases s <;> exact ⟨rfl, by simp [JobIndexing.aenter]⟩

/-- C3, witness for the amended theorem at an engine-start failure. -/
theorem C3_aenter_releases_nothing_witness :
    (JobIndexing.aenter (some Resource.playwrightEngine)).2.1 = [] ∧
    (JobIndexing.aenter (some Resource.playwrightEngine)).2.2 =
      .error PipelineError.resourceFailure :=
  ⟨(C3_aenter_releases_nothing (some Resource.playwrightEngine)).1,
   (C3_aenter_releases_nothing (some Resource.playwrightEngine)).2
     Resource.playwrightEngine rfl⟩

/-- C4, counterexample: if stopping the workers raises, `__aexit__` stops
there — the browser close and engine stop are never attempted and the
error propagates at once instead of being retained to the end. -/
theorem C4_counterexample :
    (JobIndexing.aexit true true false true false false).1 =
      [TeardownStep.cancelTasks, TeardownStep.stopWorkers] ∧
    TeardownStep.closeBrowser ∉ (JobIndexing.aexit true true false true false false).1 ∧
    (JobIndexing.aexit true true false true false false).2 =
      some TeardownStep.stopWorkers := by
  decide

/-- C4, amended: teardown attempts the steps in the fixed source order
cancel-tasks, stop-workers, close-browser, stop-engine; when no step
raises all four run; but the first raising step ends `__aexit__`
immediately — its error propagates and no later step is attempted (there
is no error retention). -/
theorem C4_teardown_aborts_at_first_error :
    ∀ fCancel fWorkers fBrowser fEngine : Bool,
      JobIndexing.aexit true true fCancel fWorkers fBrowser fEngine =
        if fCancel then ([TeardownStep.cancelTasks], some TeardownStep.cancelTasks)
        else if fWorkers then
          ([TeardownStep.cancelTasks, TeardownStep.stopWorkers],
            some TeardownStep.stopWorkers)
        else if fBrowser then
          ([TeardownStep.cancelTasks, TeardownStep.stopWorkers,
            TeardownStep.closeBrowser], some TeardownStep.closeBrowser)
        else if fEngine then
          ([TeardownStep.cancelTasks, TeardownStep.stopWorkers,
            TeardownStep.closeBrowser, TeardownStep.stopEngine],
            some TeardownStep.stopEngine)
        else ([TeardownStep.cancelTasks, TeardownStep.stopWorkers,
          TeardownStep.closeBrowser, TeardownStep.stopEngine], none) := by
  decide

/-- C5, counterexample: a job page that renders but whose extraction fails
makes `job_details_collector` raise the extraction error (it is not caught
and the record is not turned into an absent result), refuting "never
raises on any navigation or extraction failure". -/
theorem C5_counterexample :
    job_details_collector (fun _ => some "detail page")
      (fun _ => .error PipelineError.extractionFailure) ⟨"job-1", none, none⟩ =
      .error PipelineError.extractionFailure := rfl

/-- C5, amended: `job_details_collector` returns absent on a navigation
failure without raising and returns the enriched record when extraction
succeeds, but an extraction failure propagates as an exception rather than
becoming an absent result. -/
theorem C5_collector_soft_fails_only_navigation :
    ∀ (visit_job_page : VisitJobPage) (extract_details : ExtractDetails)
      (job : RawJob),
      (visit_job_page job = none →
        job_details_collector visit_job_page extract_details job = .ok none) ∧
      (∀ content job_details job_metadata,
        visit_job_page job = some content →
        extract_details content = .ok (job_details, job_metadata) →
        job_details_collector visit_job_page extract_details job =
          .ok (some (job.update_data job_details job_metadata))) ∧
      (∀ content e, visit_job_page job = some content →
        extract_details content = .error e →
        job_details_collector visit_job_page extract_details job = .error e) := by
  intro visit_job_page extract_details job
  refine ⟨fun hnav => ?_, fun content d m hnav hext => ?_,
    fun content e hnav hext => ?_⟩
  · simp [job_details_collector, hnav]
  · simp [job_details_collector, hnav, hext]
  · simp [job_details_collector, hnav, hext]

/-- C5, witness for the amended theorem: a navigation failure yields
absent, a successful extraction yields the enriched record. -/
theorem C5_collector_soft_fails_only_navigation_witness :
    job_details_collector (fun _ => none)
      (fun _ => .error PipelineError.extractionFailure) ⟨"job-2", none, none⟩ =
      .ok none ∧
    job_details_collector (fun _ => some "content")
      (fun _ => .ok ("full description", "metadata")) ⟨"job-2", none, none⟩ =
      .ok (some (RawJob.update_data ⟨"job-2", none, none⟩
        "full description" "metadata")) :=
  ⟨(C5_collector_soft_fails_only_navigation _ _ _).1 rfl,
   (C5_collector_soft_fails_only_navigation _ _ _).2.1
     "content" "full description" "metadata" rfl rfl⟩

/-- C10: a consumer iteration raises exactly when the detail fetch raises
or the fetch yields a record and the offloaded indexing call raises — in
every other case it runs `task_done`; and if any enqueued item's iteration
raised, the unacknowledged count stays positive, so the queue join in
`run` can never complete. -/
theorem C10_unacknowledged_item_blocks_join :
    (∀ (fetchResult : Except PipelineError (Option RawJob))
      (indexResult : Except PipelineError Unit),
      ((∃ e, consumerIteration fetchResult indexResult = .error e) ↔
        ((∃ e, fetchResult = .error e) ∨
          (∃ j, fetchResult = .ok (some j) ∧ ∃ e, indexResult = .error e)))) ∧
    (∀ iterations : List (Except PipelineError Bool),
      (∃ e, Except.error e ∈ iterations) →
        0 < unfinishedAfter iterations ∧
          joinCompletes (unfinishedAfter iterations) = false) := by
  constructor
  · intro fetchResult indexResult
    rcases fetchResult with e | j
    · simp [consumerIteration]
    · rcases j with _ | j
      · rcases indexResult with e | u <;> simp [consumerIteration]
      · rcases indexResult with e | u <;> simp [consumerIteration]
  · intro iterations ⟨e, hmem⟩
    have hlt : (iterations.map acksOfIteration).sum < iterations.length := by
      induction iterations with
      | nil => cases hmem
      | cons a t ih =>
        have hle : ∀ l : List (Except PipelineError Bool),
            (l.map acksOfIteration).sum ≤ l.length := by
          intro l
          induction l with
          | nil => simp
          | cons b u ihu =>
            have hb : acksOfIteration b ≤ 1 := by
              cases b <;> simp [acksOfIteration]
            simp only [List.map_cons, List.sum_cons, List.length_cons]
            omega
        rcases List.mem_cons.mp hmem with rfl | ht
        · have := hle t
          simp [acksOfIteration]
          omega
        · have := ih ht
          have ha : acksOfIteration a ≤ 1 := by
            cases a <;> simp [acksOfIteration]
          simp only [List.map_cons, List.sum_cons, List.length_cons]
          omega
    unfold unfinishedAfter joinCompletes
    constructor
    · omega
    · simp only [beq_eq_false_iff_ne, ne_eq]
      omega

/-- C10, witness: one failed iteration among two leaves the join
incomplete. -/
theorem C10_unacknowledged_item_blocks_join_witness :
    0 < unfinishedAfter
      [Except.error PipelineError.indexTransportFailure, Except.ok true] ∧
    joinCompletes (unfinishedAfter
      [Except.error PipelineError.indexTransportFailure, Except.ok true]) = false :=
  C10_unacknowledged_item_blocks_join.2
    [Except.error PipelineError.indexTransportFailure, Except.ok true]
    ⟨PipelineError.indexTransportFailure, List.Mem.head _⟩

end IndeedConnector
